import Mathlib

/-!
# Verification of the anima media pipeline (`anima/utils/__init__.py`)

A shallow embedding of the media-derivative pipeline of `MediaManager`:
probe-output parsing (`get_video_info`), frame-count estimation and the
frame plan (`generate_video_thumbnail`), the three-frame substitution
policy, the `convert_to_webm` option builder, and the link-chain
construction of `upload_reference` / `upload_version_output`.

Python runtime errors (KeyError, IndexError, ValueError, TypeError,
ZeroDivisionError, AttributeError, RuntimeError) are modelled by an
explicit error type; fallible code returns `Except PyErr`.
-/

set_option autoImplicit false

/-- Python runtime exceptions raised by the modelled code paths. -/
inductive PyErr where
  | keyError
  | indexError
  | valueError
  | typeError
  | zeroDivisionError
  | attributeError
  | runtimeError
deriving DecidableEq

/-- A Python dict with string keys and string values, as an association
list in insertion order (the parser and option builders only ever build
duplicate-free lists via `dictInsert`). -/
abbrev PyDict := List (String × String)

/-- `d[k]` / `d.get(k)` lookup: first binding of `k`. -/
def dictLookup (d : PyDict) (k : String) : Option String :=
  match d with
  | [] => none
  | (k1, v1) :: rest => if k = k1 then some v1 else dictLookup rest k

/-- Python `d[k] = v`: replace the binding of `k` in place if present,
otherwise append a new binding (CPython dict update semantics on
duplicate-free association lists). -/
def dictInsert (d : PyDict) (k v : String) : PyDict :=
  match d with
  | [] => [(k, v)]
  | (k1, v1) :: rest =>
      if k1 = k then (k1, v) :: rest else (k1, v1) :: dictInsert rest k v

/-- Python `d.update(opts)`: apply `dictInsert` for each pair in order. -/
def pyUpdate (d : PyDict) (opts : List (String × String)) : PyDict :=
  opts.foldl (fun acc kv => dictInsert acc kv.1 kv.2) d

/-- The whitespace set stripped by Python `str.strip()`. -/
def isPySpace (c : Char) : Bool :=
  c = ' ' || c = '\t' || c = '\n' || c = '\r' || c = '\x0b' || c = '\x0c'

/-- Python `str.strip()` on a character list. -/
def stripChars (cs : List Char) : List Char :=
  ((cs.dropWhile isPySpace).reverse.dropWhile isPySpace).reverse

/-- Python `str.strip()`. -/
def pyStrip (s : String) : String :=
  String.mk (stripChars s.data)

/-- Python `c in s` membership test on a character list. -/
def containsChar (c : Char) : List Char → Bool
  | [] => false
  | x :: rest => if x = c then true else containsChar c rest

/-- Python `str.split(sep)` for a single-character separator: split on
every occurrence of `sep`; `n` separators yield `n + 1` parts. -/
def pySplit (sep : Char) : List Char → List (List Char)
  | [] => [[]]
  | c :: rest =>
      if c = sep then [] :: pySplit sep rest
      else
        match pySplit sep rest with
        | h :: t => (c :: h) :: t
        | [] => [[c]]

/-!
## ProbeInfoParser: the `[STREAM]` scanning loops of `get_video_info`

`get_video_info` pops lines one by one.  The initial pop and the pop at
the bottom of the inner `[STREAM]` loop are unguarded (`IndexError`
propagates); only the pop at the bottom of the outer loop is wrapped in
`try/except IndexError`.  Inside a block, a line containing `=` is split
with `flag, value = line.split('=')`: a two-target unpacking of a full
split, which raises `ValueError` unless the line has exactly one `=`.
-/

/-- One iteration of the inner-loop body for a non-`[/STREAM]` line:
`if '=' in line: flag, value = line.split('='); stream_info[flag] = value`. -/
def parseKVLine (line : String) (r : PyDict) : Except PyErr PyDict :=
  if containsChar '=' line.data then
    match pySplit '=' line.data with
    | [kc, vc] => Except.ok (dictInsert r (String.mk kc) (String.mk vc))
    | _ => Except.error PyErr.valueError
  else Except.ok r

/-- The nested scanning loops of `get_video_info` over the `show_streams`
output, as a line-by-line state machine.  `none` is the outer loop
("outside any block"); `some r` is the inner `[STREAM]` loop with the
partially accumulated record `r`.  `line` is the already-stripped current
line; `buf` holds the not-yet-popped lines; `acc` is
`media_info['stream_info']`. -/
def scanStreams : Option PyDict → String → List String → List PyDict → Except PyErr (List PyDict)
  | none, line, [], acc =>
      -- outer loop: entering a block pops unguarded; otherwise the
      -- guarded pop ends the loop (`line = None`)
      if line = "[STREAM]" then Except.error PyErr.indexError else Except.ok acc
  | none, line, l :: rest, acc =>
      if line = "[STREAM]" then scanStreams (some []) (pyStrip l) rest acc
      else scanStreams none (pyStrip l) rest acc
  | some r, line, [], acc =>
      if line = "[/STREAM]" then Except.ok (acc ++ [r])
      else
        match parseKVLine line r with
        | Except.error e => Except.error e
        | Except.ok _ => Except.error PyErr.indexError   -- unguarded inner pop
  | some r, line, l :: rest, acc =>
      if line = "[/STREAM]" then scanStreams none (pyStrip l) rest (acc ++ [r])
      else
        match parseKVLine line r with
        | Except.error e => Except.error e
        | Except.ok r2 => scanStreams (some r2) (pyStrip l) rest acc

/-- The `[STREAM]`-scanning part of `get_video_info`: the first line is
popped unguarded (empty probe output raises `IndexError`), then the outer
loop runs. -/
def get_video_info_streams (buffer : List String) : Except PyErr (List PyDict) :=
  match buffer with
  | [] => Except.error PyErr.indexError
  | l :: rest => scanStreams none (pyStrip l) rest []

/-- Number of well-formed `[STREAM]`...`[/STREAM]` block pairs in a raw
line sequence (lines compared after stripping, as the code does). -/
def countStreamPairs : Bool → List String → Nat
  | _, [] => 0
  | false, l :: r =>
      if pyStrip l = "[STREAM]" then countStreamPairs true r
      else countStreamPairs false r
  | true, l :: r =>
      if pyStrip l = "[/STREAM]" then 1 + countStreamPairs false r
      else countStreamPairs true r

/-- `countStreamPairs` restated from the scanner's mid-loop position:
current (already stripped) line plus remaining buffer. -/
def countPairsFrom : Bool → String → List String → Nat
  | false, line, buf =>
      if line = "[STREAM]" then countStreamPairs true buf
      else countStreamPairs false buf
  | true, line, buf =>
      if line = "[/STREAM]" then 1 + countStreamPairs false buf
      else countStreamPairs true buf

/-!
## FrameCountEstimator: the estimation block of `generate_video_thumbnail`

Python `float` values reached by this code are modelled as exact
rationals; `int(x)` on a float truncates toward zero.  `float(str)` and
`int(str)` parse optionally signed decimal literals and raise
`ValueError` otherwise (exponent / infinity / nan forms do not occur in
the probe fields modelled here).
-/

/-- Value of a (checked) digit string. -/
def digitsToNat (cs : List Char) : Nat :=
  cs.foldl (fun n c => n * 10 + (c.toNat - 48)) 0

/-- All characters are ASCII digits. -/
def allDigits (cs : List Char) : Bool :=
  cs.all (fun c => c.isDigit)

/-- Strip whitespace and a leading sign: returns (negative?, rest). -/
def splitSign (cs : List Char) : Bool × List Char :=
  match stripChars cs with
  | [] => (false, [])
  | c :: rest =>
      if c = '-' then (true, rest)
      else if c = '+' then (false, rest)
      else (false, c :: rest)

/-- Python `float(str)` on decimal literals (`"24"`, `"23.976"`, `"-1.5"`,
`".5"`, `"5."`), `ValueError` otherwise. -/
def pyFloat (s : String) : Except PyErr Rat :=
  let (neg, cs) := splitSign s.data
  match pySplit '.' cs with
  | [a] =>
      if a.isEmpty = false && allDigits a then
        Except.ok (if neg then -(digitsToNat a : Rat) else (digitsToNat a : Rat))
      else Except.error PyErr.valueError
  | [a, b] =>
      if (a ++ b).isEmpty = false && allDigits (a ++ b) then
        let q : Rat := (digitsToNat a : Rat) + (digitsToNat b : Rat) / ((10 : Rat) ^ b.length)
        Except.ok (if neg then -q else q)
      else Except.error PyErr.valueError
  | _ => Except.error PyErr.valueError

/-- Python `int(str)` on integer literals, `ValueError` otherwise. -/
def pyIntOfString (s : String) : Except PyErr Int :=
  let (neg, cs) := splitSign s.data
  if cs.isEmpty = false && allDigits cs then
    Except.ok (if neg then -(digitsToNat cs : Int) else (digitsToNat cs : Int))
  else Except.error PyErr.valueError

/-- Python `int(x)` on a float: truncation toward zero. -/
def pyTrunc (q : Rat) : Int :=
  q.num.tdiv q.den

/-- A Python value held by the `frame_rate` local of
`generate_video_thumbnail`: the code converts it to float only in the
`N/D` ratio branch, so it may remain a string. -/
inductive PyVal where
  | str (s : String)
  | num (q : Rat)
deriving DecidableEq

/-- The frame-count estimation block of `generate_video_thumbnail`
(lines 469-498), for a given video stream record and the format record
(`video_info`; the claims under verification always supply a format
mapping, matching probe output with a `[FORMAT]` block). -/
def estimateFrames (video_stream video_info : PyDict) : Except PyErr Int :=
  let nb0 := dictLookup video_stream "nb_frames"
  if nb0 = none ∨ nb0 = some "N/A" then
    -- first try to use "r_frame_rate" and "duration"
    let frameRateRes : Except PyErr PyVal :=
      match dictLookup video_stream "r_frame_rate" with
      | none =>
          -- frame_rate = float(video_info.get('TAG:framerate', 23.976))
          (match dictLookup video_info "TAG:framerate" with
           | none => Except.ok (PyVal.num ((23976 : Rat) / 1000))
           | some s =>
               match pyFloat s with
               | Except.ok q => Except.ok (PyVal.num q)
               | Except.error e => Except.error e)
      | some fr =>
          if containsChar '/' fr.data then
            -- nominator, denominator = frame_rate.split('/')
            match pySplit '/' fr.data with
            | [nc, dc] =>
                (match pyFloat (String.mk nc), pyFloat (String.mk dc) with
                 | Except.ok nf, Except.ok df =>
                     if df = 0 then Except.error PyErr.zeroDivisionError
                     else Except.ok (PyVal.num (nf / df))
                 | Except.error e, _ => Except.error e
                 | _, Except.error e => Except.error e)
            | _ => Except.error PyErr.valueError
          else
            -- no conversion: frame_rate stays a string
            Except.ok (PyVal.str fr)
    match frameRateRes with
    | Except.error e => Except.error e
    | Except.ok frame_rate =>
        let durationRes : Except PyErr Rat :=
          match dictLookup video_stream "duration" with
          | some "N/A" =>
              (match dictLookup video_info "duration" with
               | none => Except.ok (1 : Rat)
               | some s => pyFloat s)
          | some s => pyFloat s
          | none => Except.error PyErr.typeError   -- float(None)
        match durationRes with
        | Except.error e => Except.error e
        | Except.ok duration =>
            match frame_rate with
            | PyVal.num fr => Except.ok (pyTrunc (duration * fr))
            | PyVal.str _ => Except.error PyErr.typeError  -- float * str
  else
    match nb0 with
    | some s => pyIntOfString s   -- nb_frames = int(nb_frames)
    | none => Except.error PyErr.typeError  -- unreachable: nb0 ≠ none here

/-- The video-stream selection loop of `generate_video_thumbnail`
(lines 464-467): iterate over all stream records, keeping the latest one
whose `codec_type` is `"video"` (there is no `break`); a record without
`codec_type` raises `KeyError`.  `acc` is the `video_stream` local. -/
def selectVideoStream (streams : List PyDict) (acc : Option PyDict) :
    Except PyErr (Option PyDict) :=
  match streams with
  | [] => Except.ok acc
  | st :: rest =>
      match dictLookup st "codec_type" with
      | none => Except.error PyErr.keyError
      | some ct => selectVideoStream rest (if ct = "video" then some st else acc)

/-- Modelled from the spec: "the StreamRecord selected as the video
stream (first record whose codec_type equals `video`)" — the selection
the spec describes, for comparison with `selectVideoStream`. -/
def firstVideoStream (streams : List PyDict) : Option PyDict :=
  streams.find? (fun st => decide (dictLookup st "codec_type" = some "video"))

/-- The last record whose `codec_type` is `"video"`, starting from a
given accumulator: the characterization of what the selection loop keeps. -/
def lastVideoFrom (streams : List PyDict) (acc : Option PyDict) : Option PyDict :=
  match (streams.filter
      (fun st => decide (dictLookup st "codec_type" = some "video"))).getLast? with
  | some x => some x
  | none => acc

/-- Stream selection followed by frame-count estimation, as
`generate_video_thumbnail` performs them: if no stream record has video
codec type, `video_stream` is `None` and `None.get('nb_frames')` raises
`AttributeError`. -/
def videoFrameCount (streams : List PyDict) (video_info : PyDict) : Except PyErr Int :=
  match selectVideoStream streams none with
  | Except.error e => Except.error e
  | Except.ok none => Except.error PyErr.attributeError
  | Except.ok (some vs) => estimateFrames vs video_info

/-- The frame plan of `generate_video_thumbnail` (lines 507-509):
`start_frame = int(nb_frames * 0.10)`, `mid_frame = int(nb_frames * 0.5)`,
`end_frame = int(nb_frames * 0.90) - 1`.  The float literals are modelled
as exact rationals; at the input relevant to the claims (`nb_frames =
240`) binary64 evaluation yields the same three values (24, 120, 216). -/
def framePlan (nb_frames : Int) : Int × Int × Int :=
  (pyTrunc ((nb_frames : Rat) * (1 / 10)),
   pyTrunc ((nb_frames : Rat) * (1 / 2)),
   pyTrunc ((nb_frames : Rat) * (9 / 10)) - 1)

/-!
## ThumbnailComposer: the substitution policy (lines 533-554)

`ex p` models `os.path.exists(p)`.  No file is created or deleted while
the three checks run, so existence is a fixed function of the path.
-/

/-- First check: `if not os.path.exists(start): if exists(mid): start =
mid; elif exists(end): start = end; mid = end`. -/
def substituteStart (ex : String → Bool) : String × String × String → String × String × String
  | (s, m, e) =>
      if ex s = false then
        (if ex m then (m, m, e) else (if ex e then (e, e, e) else (s, m, e)))
      else (s, m, e)

/-- Second check: `if not os.path.exists(mid): if exists(start): mid =
start; else: start = end; mid = end`. -/
def substituteMid (ex : String → Bool) : String × String × String → String × String × String
  | (s, m, e) =>
      if ex m = false then
        (if ex s then (s, s, e) else (e, e, e))
      else (s, m, e)

/-- Third check: `if not os.path.exists(end): if exists(mid): end = mid;
else: mid = start; end = start`. -/
def substituteEnd (ex : String → Bool) : String × String × String → String × String × String
  | (s, m, e) =>
      if ex e = false then
        (if ex m then (s, m, m) else (s, s, s))
      else (s, m, e)

/-- The full substitution policy of `generate_video_thumbnail`: the three
checks in fixed order start, mid, end, each over the already-substituted
state. -/
def resolveThumbPaths (ex : String → Bool) (s m e : String) : String × String × String :=
  substituteEnd ex (substituteMid ex (substituteStart ex (s, m, e)))

/-- Modelled from the spec: "If the start frame failed to materialize:
substitute the mid frame if it exists, else the end frame for both start
and mid" — unlike the code, the spec's else-branch does not test whether
the end frame exists. -/
def specSubstituteStart (ex : String → Bool) : String × String × String → String × String × String
  | (s, m, e) =>
      if ex s = false then
        (if ex m then (m, m, e) else (e, e, e))
      else (s, m, e)

/-- Modelled from the spec: "If the mid frame failed to materialize:
substitute the start frame if it exists, else collapse start and mid to
the end frame." -/
def specSubstituteMid (ex : String → Bool) : String × String × String → String × String × String
  | (s, m, e) =>
      if ex m = false then
        (if ex s then (s, s, e) else (e, e, e))
      else (s, m, e)

/-- Modelled from the spec: "If the end frame failed to materialize:
substitute the mid frame if it exists, else collapse mid and end to the
start frame." -/
def specSubstituteEnd (ex : String → Bool) : String × String × String → String × String × String
  | (s, m, e) =>
      if ex e = false then
        (if ex m then (s, m, m) else (s, s, s))
      else (s, m, e)

/-- Modelled from the spec: the three substitution rules applied
sequentially in the fixed order start, mid, end, each against the state
after the prior substitutions. -/
def specResolveThumbPaths (ex : String → Bool) (s m e : String) : String × String × String :=
  specSubstituteEnd ex (specSubstituteMid ex (specSubstituteStart ex (s, m, e)))

/-!
## MediaConverter: `convert_to_webm` option building (lines 865-889)
-/

/-- `os.path.splitext(p)[0]` (posixpath): drop the extension that starts
at the last `.` of the final path segment, unless every character of the
segment before that dot is itself a dot (leading dots are not an
extension). -/
def splitExtRoot (p : String) : String :=
  let cs := p.data
  let base := cs.reverse.takeWhile (fun c => c ≠ '/')       -- reversed basename
  let afterDot := base.takeWhile (fun c => c ≠ '.')          -- reversed chars after last dot
  if afterDot.length = base.length then p                    -- no dot in basename
  else
    let extLen := afterDot.length + 1
    if (base.drop extLen).any (fun c => c ≠ '.') then
      String.mk (cs.take (cs.length - extLen))
    else p

/-- The conversion-option dict built by `convert_to_webm`: the preset
(`i`, `vcodec`, `b:v` from `web_video_bitrate`, `o` with the extension
forced to `.webm`), then `conversion_options.update(options)` applied
last. -/
def convert_to_webm_options (input_path output_path : String) (bitrate : Nat)
    (options : List (String × String)) : PyDict :=
  let out := splitExtRoot output_path ++ ".webm"
  pyUpdate
    [("i", input_path),
     ("vcodec", "libvpx"),
     ("b:v", toString bitrate ++ "k"),
     ("o", out)]
    options

/-!
## ArtifactLinker: `upload_reference` and `upload_version_output`

A `Link` carries a storage path, the original filename and an optional
`thumbnail` reference.  Path computation (repository-relative paths,
`ForWeb` / `Thumbnail` directories) is performed by external
collaborators excluded from the core; the computed paths enter the model
as parameters.  Generation of the web version and of the thumbnail are
modelled by their outcomes: a produced temp path, or the exception they
raise. -/
inductive Link where
  | mk (full_path : String) (original_filename : String) (thumbnail : Option Link)

/-- The `thumbnail` reference of a link. -/
def Link.thumb : Link → Option Link
  | .mk _ _ t => t

/-- `upload_reference` (lines 1146-1264): web-version generation and
thumbnail generation are invoked with NO try/except — any exception
propagates and the whole upload fails.  On success the root link always
receives the full two-level chain. -/
def upload_reference (origPath filename webPath webName thumbPath thumbName : String)
    (webGen thumbGen : Except PyErr String) : Except PyErr Link :=
  match webGen with
  | Except.error e => Except.error e
  | Except.ok _ =>
      match thumbGen with
      | Except.error e => Except.error e
      | Except.ok _ =>
          Except.ok (Link.mk origPath filename
            (some (Link.mk webPath webName
              (some (Link.mk thumbPath thumbName none)))))

/-- `upload_version_output` (lines 1297-1422): each generation stage is
wrapped in `try/except RuntimeError` so a RuntimeError leaves the
corresponding link `None`; afterwards `link.thumbnail = web_version_link`
only if the web link exists, and `web_version_link.thumbnail =
thumbnail_link` only below it. -/
def upload_version_output (origPath filename webPath thumbPath : String)
    (webGen thumbGen : Except PyErr String) : Except PyErr Link :=
  let webStage : Except PyErr (Option Link) :=
    match webGen with
    | Except.ok _ => Except.ok (some (Link.mk webPath filename none))
    | Except.error PyErr.runtimeError => Except.ok none
    | Except.error e => Except.error e
  match webStage with
  | Except.error e => Except.error e
  | Except.ok web_version_link =>
      let thumbStage : Except PyErr (Option Link) :=
        match thumbGen with
        | Except.ok _ => Except.ok (some (Link.mk thumbPath filename none))
        | Except.error PyErr.runtimeError => Except.ok none
        | Except.error e => Except.error e
      match thumbStage with
      | Except.error e => Except.error e
      | Except.ok thumbnail_link =>
          Except.ok (Link.mk origPath filename
            (match web_version_link with
             | none => none
             | some (Link.mk wp wf _) => some (Link.mk wp wf thumbnail_link)))

/-!
## Theorems
-/

/-- C7: For an estimated total frame count of exactly 240, the computed
frame plan is start = 24, mid = 120, end = 215, matching
start = floor(0.10 F), mid = floor(0.50 F), end = floor(0.90 F) - 1. -/
theorem framePlan_at_240 : framePlan 240 = (24, 120, 215) := by
  have h1 : ((240 : Int) : Rat) * (1 / 10) = 24 := by norm_num
  have h2 : ((240 : Int) : Rat) * (1 / 2) = 120 := by norm_num
  have h3 : ((240 : Int) : Rat) * (9 / 10) = 216 := by norm_num
  unfold framePlan
  rw [h1, h2, h3]
  decide

/-- C2: For every existence combination of the three extracted frame
files, the resolved (start, mid, end) triple equals the result of
applying the spec's three substitution rules sequentially in the order
start, mid, end, each against the state after the prior substitutions;
when all three extractions fail, the three resolved paths are all equal
to one another (the same non-existent path). -/
theorem substitution_policy_refines_spec (ex : String → Bool) (s m e : String) :
    resolveThumbPaths ex s m e = specResolveThumbPaths ex s m e ∧
    (ex s = false → ex m = false → ex e = false →
      ((resolveThumbPaths ex s m e).1 = (resolveThumbPaths ex s m e).2.1 ∧
       (resolveThumbPaths ex s m e).2.1 = (resolveThumbPaths ex s m e).2.2 ∧
       ex (resolveThumbPaths ex s m e).1 = false)) := by
  cases hs : ex s <;> cases hm : ex m <;> cases he : ex e <;>
    simp [resolveThumbPaths, specResolveThumbPaths, substituteStart, substituteMid,
      substituteEnd, specSubstituteStart, specSubstituteMid, specSubstituteEnd,
      hs, hm, he]

/-- Witness for C2 at a concrete input where all three extractions fail. -/
theorem substitution_policy_refines_spec_witness :
    resolveThumbPaths (fun _ => false) "S" "M" "E" =
      specResolveThumbPaths (fun _ => false) "S" "M" "E" ∧
    ((resolveThumbPaths (fun _ => false) "S" "M" "E").1 =
       (resolveThumbPaths (fun _ => false) "S" "M" "E").2.1 ∧
     (resolveThumbPaths (fun _ => false) "S" "M" "E").2.1 =
       (resolveThumbPaths (fun _ => false) "S" "M" "E").2.2 ∧
     (fun (_ : String) => false) (resolveThumbPaths (fun _ => false) "S" "M" "E").1 = false) :=
  ⟨(substitution_policy_refines_spec (fun _ => false) "S" "M" "E").1,
   (substitution_policy_refines_spec (fun _ => false) "S" "M" "E").2 rfl rfl rfl⟩

/-- C9: After the substitution policy, each of the three resolved paths
is one of the three originally planned temporary frame paths, and
whenever at least one extraction materialized a file, all three resolved
paths refer to files that exist. -/
theorem resolved_paths_invariant (ex : String → Bool) (s m e : String) :
    ((resolveThumbPaths ex s m e).1 ∈ [s, m, e] ∧
     (resolveThumbPaths ex s m e).2.1 ∈ [s, m, e] ∧
     (resolveThumbPaths ex s m e).2.2 ∈ [s, m, e]) ∧
    ((ex s || ex m || ex e) = true →
      ex (resolveThumbPaths ex s m e).1 = true ∧
      ex (resolveThumbPaths ex s m e).2.1 = true ∧
      ex (resolveThumbPaths ex s m e).2.2 = true) := by
  cases hs : ex s <;> cases hm : ex m <;> cases he : ex e <;>
    simp [resolveThumbPaths, substituteStart, substituteMid, substituteEnd, hs, hm, he]

/-- Witness for C9 at a concrete input where only the mid frame exists. -/
theorem resolved_paths_invariant_witness :
    (fun p => p == "M") (resolveThumbPaths (fun p => p == "M") "S" "M" "E").1 = true ∧
    (fun p => p == "M") (resolveThumbPaths (fun p => p == "M") "S" "M" "E").2.1 = true ∧
    (fun p => p == "M") (resolveThumbPaths (fun p => p == "M") "S" "M" "E").2.2 = true :=
  (resolved_paths_invariant (fun p => p == "M") "S" "M" "E").2 (by decide)

/-- C10: In `upload_version_output`, a thumbnail link is attached only
below a web-version link: when web-version generation failed with
RuntimeError, the returned root link carries no thumbnail reference even
though thumbnail generation succeeded; when both succeed the thumbnail
link sits below the web-version link. -/
theorem thumbnail_link_only_below_web (o f w t wp tp : String) :
    upload_version_output o f w t (Except.error PyErr.runtimeError) (Except.ok tp) =
      Except.ok (Link.mk o f none) ∧
    upload_version_output o f w t (Except.ok wp) (Except.ok tp) =
      Except.ok (Link.mk o f (some (Link.mk w f (some (Link.mk t f none))))) :=
  ⟨rfl, rfl⟩

/-- Counterexample to C5 as stated: in `upload_reference` a RuntimeError
raised while generating the web version propagates — the upload does not
complete with an absent derivative, it fails as a whole. -/
theorem upload_reference_web_failure_fatal :
    upload_reference "o" "f" "w" "wn" "t" "tn"
        (Except.error PyErr.runtimeError) (Except.ok "x") =
      Except.error PyErr.runtimeError := rfl

/-- C5 (amended): the per-stage catch exists only in
`upload_version_output`: there a RuntimeError in either generation stage
leaves that derivative absent and the chain shorter, while in
`upload_reference` a generation failure in either stage propagates and
the whole upload fails. -/
theorem per_stage_catch_only_in_version_output (o f w t wn tn wp tp : String) :
    (upload_version_output o f w t (Except.error PyErr.runtimeError) (Except.ok tp) =
       Except.ok (Link.mk o f none)) ∧
    (upload_version_output o f w t (Except.ok wp) (Except.error PyErr.runtimeError) =
       Except.ok (Link.mk o f (some (Link.mk w f none)))) ∧
    (∀ tg : Except PyErr String,
       upload_reference o f w wn t tn (Except.error PyErr.runtimeError) tg =
         Except.error PyErr.runtimeError) ∧
    (upload_reference o f w wn t tn (Except.ok wp) (Except.error PyErr.runtimeError) =
       Except.error PyErr.runtimeError) :=
  ⟨rfl, rfl, fun _ => rfl, rfl⟩

/-- Counterexample to C4 as stated: for the well-formed video stream
record with a plain (non-ratio) `r_frame_rate` string, the estimator
raises TypeError — the code never converts a ratio-free frame-rate
string to float, so `duration * frame_rate` multiplies a float by a
string. -/
theorem estimate_frames_raises_on_plain_rate :
    estimateFrames [("codec_type", "video"), ("r_frame_rate", "24"), ("duration", "10")] [] =
      Except.error PyErr.typeError := rfl

/-- C4 (amended): the estimation step completes without raising only on
the fallback chain's happy paths; in particular, whenever `nb_frames` is
present, differs from `"N/A"`, and parses as an integer literal, the
estimator returns exactly that integer without consulting frame rate or
duration. -/
theorem nb_frames_direct_exact (vs fmt : PyDict) (s : String) (n : Int)
    (h1 : dictLookup vs "nb_frames" = some s) (h2 : s ≠ "N/A")
    (h3 : pyIntOfString s = Except.ok n) :
    estimateFrames vs fmt = Except.ok n := by
  simp only [estimateFrames, h1]
  rw [if_neg (by simp [h2])]
  exact h3

/-- Witness for C4's amended theorem at `nb_frames = "42"`. -/
theorem nb_frames_direct_exact_witness :
    estimateFrames [("nb_frames", "42")] [] = Except.ok 42 :=
  nb_frames_direct_exact [("nb_frames", "42")] [] "42" 42 rfl (by decide) rfl

/-- Counterexample to C1 as stated: with two video stream records, the
selection loop (which has no break) keeps the second one, so the later
record determines the frame-count estimate (2, not the first record's 1). -/
theorem later_video_stream_overrides_earlier :
    selectVideoStream [[("codec_type", "video"), ("nb_frames", "1")],
                       [("codec_type", "video"), ("nb_frames", "2")]] none =
      Except.ok (some [("codec_type", "video"), ("nb_frames", "2")]) ∧
    firstVideoStream [[("codec_type", "video"), ("nb_frames", "1")],
                      [("codec_type", "video"), ("nb_frames", "2")]] =
      some [("codec_type", "video"), ("nb_frames", "1")] ∧
    ([("codec_type", "video"), ("nb_frames", "2")] : PyDict) ≠
      [("codec_type", "video"), ("nb_frames", "1")] ∧
    videoFrameCount [[("codec_type", "video"), ("nb_frames", "1")],
                     [("codec_type", "video"), ("nb_frames", "2")]] [] = Except.ok 2 ∧
    estimateFrames [("codec_type", "video"), ("nb_frames", "1")] [] = Except.ok 1 :=
  ⟨rfl, rfl, by decide, rfl, rfl⟩

/-- Unfolding `lastVideoFrom` over the head record mirrors one loop step. -/
theorem lastVideoFrom_cons (st : PyDict) (rest : List PyDict) (acc : Option PyDict) :
    lastVideoFrom (st :: rest) acc =
      lastVideoFrom rest (if dictLookup st "codec_type" = some "video" then some st else acc) := by
  by_cases hv : dictLookup st "codec_type" = some "video"
  · simp only [lastVideoFrom, List.filter_cons, hv, if_pos, decide_True]
    cases hfr : rest.filter (fun st => decide (dictLookup st "codec_type" = some "video")) with
    | nil => simp
    | cons b l =>
      rw [List.getLast?_cons_cons]
      cases ho : (b :: l).getLast? with
      | none => exact absurd (List.getLast?_eq_none_iff.mp ho) (by simp)
      | some x => simp
  · simp [lastVideoFrom, List.filter_cons, hv]

/-- What the selection loop of `generate_video_thumbnail` computes, for
any accumulator value: the last video record, else the accumulator. -/
theorem selectVideoStream_keeps_last :
    ∀ (streams : List PyDict) (acc r : Option PyDict),
      selectVideoStream streams acc = Except.ok r → r = lastVideoFrom streams acc := by
  intro streams
  induction streams with
  | nil =>
    intro acc r h
    simp only [selectVideoStream, Except.ok.injEq] at h
    simp [lastVideoFrom, ← h]
  | cons st rest ih =>
    intro acc r h
    simp only [selectVideoStream] at h
    cases hct : dictLookup st "codec_type" with
    | none => rw [hct] at h; exact absurd h (by simp)
    | some ct =>
      rw [hct] at h
      rw [lastVideoFrom_cons]
      have hcond : (if dictLookup st "codec_type" = some "video" then some st else acc) =
          (if ct = "video" then some st else acc) := by
        rw [hct]; simp
      rw [hcond]
      exact ih _ _ h

/-- C1 (amended): whenever the selection loop completes without raising,
the record used for frame-count estimation is the LAST record in
appearance order whose `codec_type` equals `"video"` — later video
records override earlier ones. -/
theorem selected_stream_is_last_video (streams : List PyDict) (r : Option PyDict)
    (h : selectVideoStream streams none = Except.ok r) :
    r = (streams.filter
      (fun st => decide (dictLookup st "codec_type" = some "video"))).getLast? := by
  rw [selectVideoStream_keeps_last streams none r h]
  unfold lastVideoFrom
  cases (streams.filter (fun st => decide (dictLookup st "codec_type" = some "video"))).getLast? <;>
    simp

/-- Witness for C1's amended theorem on a two-video-record input. -/
theorem selected_stream_is_last_video_witness :
    (some [("codec_type", "video"), ("duration", "1")] : Option PyDict) =
      ([[("codec_type", "video"), ("duration", "9")],
        [("codec_type", "video"), ("duration", "1")]].filter
        (fun st => decide (dictLookup st "codec_type" = some "video"))).getLast? :=
  selected_stream_is_last_video
    [[("codec_type", "video"), ("duration", "9")],
     [("codec_type", "video"), ("duration", "1")]]
    (some [("codec_type", "video"), ("duration", "1")]) rfl

/-- Counterexample to C6 as stated: a block line with two `=` characters
does not yield `key -> "a=b"`; the two-target unpacking of the full split
raises ValueError. -/
theorem multi_equals_line_raises :
    get_video_info_streams ["[STREAM]", "key=a=b", "[/STREAM]"] =
      Except.error PyErr.valueError := rfl

/-- Counterexample to C3 as stated: an unterminated `[STREAM]` block is
not treated as an implicit end-of-block; the unguarded inner pop raises
IndexError. -/
theorem unterminated_block_raises :
    get_video_info_streams ["[STREAM]"] = Except.error PyErr.indexError := rfl

/-- After `d[k] = v`, looking up `k` yields `v`. -/
theorem dictLookup_dictInsert_self (d : PyDict) (k v : String) :
    dictLookup (dictInsert d k v) k = some v := by
  induction d with
  | nil => simp [dictInsert, dictLookup]
  | cons p rest ih =>
    obtain ⟨k1, v1⟩ := p
    by_cases h : k1 = k
    · simp [dictInsert, dictLookup, h]
    · simp [dictInsert, dictLookup, h, Ne.symm h, ih]

/-- After `d[k] = v`, lookups of other keys are unchanged. -/
theorem dictLookup_dictInsert_ne (d : PyDict) (k v k2 : String) (h : k2 ≠ k) :
    dictLookup (dictInsert d k v) k2 = dictLookup d k2 := by
  induction d with
  | nil => simp [dictInsert, dictLookup, h]
  | cons p rest ih =>
    obtain ⟨k1, v1⟩ := p
    by_cases h1 : k1 = k
    · subst h1
      simp [dictInsert, dictLookup, h]
    · simp [dictInsert, dictLookup, h1, ih]

/-- Updating an existing key leaves the key sequence unchanged. -/
theorem dictInsert_keys_of_mem (d : PyDict) (k v : String)
    (h : (dictLookup d k).isSome = true) :
    (dictInsert d k v).map Prod.fst = d.map Prod.fst := by
  induction d with
  | nil => simp [dictLookup] at h
  | cons p rest ih =>
    obtain ⟨k1, v1⟩ := p
    by_cases h1 : k1 = k
    · simp [dictInsert, h1]
    · have h2 : ¬k = k1 := fun hc => h1 hc.symm
      simp only [dictLookup, if_neg h2] at h
      simp [dictInsert, h1, ih h]

/-- C8: building the `convert_to_webm` option set with no overrides and
with the single override `{k: v}` for a preset key `k` yields identical
option sets except at `k`, which maps to `v` in the second build —
caller-supplied overrides are applied last and can override any preset
field. -/
theorem convert_to_webm_override (inp outp : String) (br : Nat) (k v : String)
    (hk : (dictLookup (convert_to_webm_options inp outp br []) k).isSome = true) :
    (convert_to_webm_options inp outp br [(k, v)]).map Prod.fst =
      (convert_to_webm_options inp outp br []).map Prod.fst ∧
    ∀ k2, dictLookup (convert_to_webm_options inp outp br [(k, v)]) k2 =
      (if k2 = k then some v
       else dictLookup (convert_to_webm_options inp outp br []) k2) := by
  have heq : convert_to_webm_options inp outp br [(k, v)] =
      dictInsert (convert_to_webm_options inp outp br []) k v := rfl
  refine ⟨?_, ?_⟩
  · rw [heq]
    exact dictInsert_keys_of_mem _ _ _ hk
  · intro k2
    rw [heq]
    by_cases h2 : k2 = k
    · subst h2
      simp [dictLookup_dictInsert_self]
    · simp [h2, dictLookup_dictInsert_ne _ _ _ _ h2]

/-- Witness for C8: overriding the preset key `vcodec`. -/
theorem convert_to_webm_override_witness :
    dictLookup (convert_to_webm_options "a.mov" "b.mov" 4096 [("vcodec", "x")]) "vcodec" =
      some "x" := by
  have h := (convert_to_webm_override "a.mov" "b.mov" 4096 "vcodec" "x" (by decide)).2 "vcodec"
  simpa using h

/-- `c in s` over a concatenation. -/
theorem containsChar_append (c : Char) (xs ys : List Char) :
    containsChar c (xs ++ ys) = (containsChar c xs || containsChar c ys) := by
  induction xs with
  | nil => simp [containsChar]
  | cons x rest ih =>
    by_cases h : x = c
    · simp [containsChar, h]
    · simp [containsChar, h, ih]

/-- A list with `c` inserted in the middle contains `c`. -/
theorem containsChar_mid (c : Char) (k v : List Char) :
    containsChar c (k ++ c :: v) = true := by
  rw [containsChar_append]
  simp [containsChar]

/-- Splitting a separator-free list yields it whole. -/
theorem pySplit_of_not_contains (sep : Char) (xs : List Char)
    (h : containsChar sep xs = false) : pySplit sep xs = [xs] := by
  induction xs with
  | nil => rfl
  | cons x rest ih =>
    simp only [containsChar] at h
    by_cases hx : x = sep
    · rw [if_pos hx] at h; exact absurd h (by simp)
    · rw [if_neg hx] at h
      simp [pySplit, hx, ih h]

/-- Splitting on the unique separator occurrence yields exactly the part
before it and the part after it. -/
theorem pySplit_single_sep (sep : Char) (k v : List Char)
    (hk : containsChar sep k = false) (hv : containsChar sep v = false) :
    pySplit sep (k ++ sep :: v) = [k, v] := by
  induction k with
  | nil =>
    rw [List.nil_append]
    simp [pySplit, pySplit_of_not_contains sep v hv]
  | cons c k2 ih =>
    simp only [containsChar] at hk
    by_cases hc : c = sep
    · rw [if_pos hc] at hk; exact absurd hk (by simp)
    · rw [if_neg hc] at hk
      simp [pySplit, hc, ih hk]

/-- C6 (amended): inside a `[STREAM]` block, a line with exactly one `=`
is split into the key before it and the value after it; a line with two
or more `=` characters instead raises ValueError (the code performs a
two-target unpacking of a full split, not a first-`=` split). -/
theorem single_equals_line_parsed (k v : List Char)
    (hk : containsChar '=' k = false) (hv : containsChar '=' v = false)
    (hs : stripChars (k ++ '=' :: v) = k ++ '=' :: v) :
    get_video_info_streams ["[STREAM]", String.mk (k ++ '=' :: v), "[/STREAM]"] =
      Except.ok [[(String.mk k, String.mk v)]] := by
  have h1 : pyStrip "[STREAM]" = "[STREAM]" := by decide
  have h2 : pyStrip "[/STREAM]" = "[/STREAM]" := by decide
  have h3 : pyStrip (String.mk (k ++ '=' :: v)) = String.mk (k ++ '=' :: v) := by
    simp [pyStrip, hs]
  have hne : ¬(String.mk (k ++ '=' :: v) = "[/STREAM]") := by
    intro hcontra
    have hdata : k ++ '=' :: v = "[/STREAM]".data := by
      rw [show k ++ '=' :: v = (String.mk (k ++ '=' :: v)).data from rfl, hcontra]
    have := containsChar_mid '=' k v
    rw [hdata] at this
    exact absurd this (by decide)
  have hparse : parseKVLine (String.mk (k ++ '=' :: v)) [] =
      Except.ok [(String.mk k, String.mk v)] := by
    unfold parseKVLine
    rw [show (String.mk (k ++ '=' :: v)).data = k ++ '=' :: v from rfl]
    rw [containsChar_mid]
    rw [pySplit_single_sep '=' k v hk hv]
    rfl
  simp only [get_video_info_streams, scanStreams, h1, h2, h3, hne, hparse,
    if_pos, if_neg, if_true, if_false, reduceIte]
  simp [hne]

/-- Witness for C6's amended theorem at the line `"k=v"`. -/
theorem single_equals_line_parsed_witness :
    get_video_info_streams ["[STREAM]", String.mk (['k'] ++ '=' :: ['v']), "[/STREAM]"] =
      Except.ok [[(String.mk ['k'], String.mk ['v'])]] :=
  single_equals_line_parsed ['k'] ['v'] (by decide) (by decide) (by decide)

/-- Entering a block: one outer step on `[STREAM]` preserves the pair count. -/
theorem countPairsFrom_enter (l : String) (rest : List String) :
    countPairsFrom false "[STREAM]" (l :: rest) = countPairsFrom true (pyStrip l) rest := by
  simp [countPairsFrom, countStreamPairs]

/-- Outside a block, a non-`[STREAM]` step preserves the pair count. -/
theorem countPairsFrom_stay_out (line l : String) (rest : List String)
    (hl : line ≠ "[STREAM]") :
    countPairsFrom false line (l :: rest) = countPairsFrom false (pyStrip l) rest := by
  simp only [countPairsFrom, countStreamPairs, if_neg hl]

/-- Closing a block on `[/STREAM]` contributes one pair. -/
theorem countPairsFrom_close (l : String) (rest : List String) :
    countPairsFrom true "[/STREAM]" (l :: rest) = 1 + countPairsFrom false (pyStrip l) rest := by
  simp [countPairsFrom, countStreamPairs]

/-- Inside a block, a non-`[/STREAM]` step preserves the pair count. -/
theorem countPairsFrom_stay_in (line l : String) (rest : List String)
    (hl : line ≠ "[/STREAM]") :
    countPairsFrom true line (l :: rest) = countPairsFrom true (pyStrip l) rest := by
  simp only [countPairsFrom, countStreamPairs, if_neg hl]

/-- Invariant of the scanning loops: whenever the scan completes without
raising, it has appended exactly one record per well-formed block pair
remaining from the current position. -/
theorem scanStreams_ok_length :
    ∀ (buf : List String) (mode : Option PyDict) (line : String) (acc recs : List PyDict),
      scanStreams mode line buf acc = Except.ok recs →
      recs.length = acc.length + countPairsFrom mode.isSome line buf := by
  intro buf
  induction buf with
  | nil =>
    intro mode line acc recs h
    cases mode with
    | none =>
      simp only [scanStreams] at h
      by_cases hl : line = "[STREAM]"
      · rw [if_pos hl] at h
        exact absurd h (by simp)
      · rw [if_neg hl] at h
        simp only [Except.ok.injEq] at h
        subst h
        simp [countPairsFrom, hl, countStreamPairs]
    | some r =>
      simp only [scanStreams] at h
      by_cases hl : line = "[/STREAM]"
      · rw [if_pos hl] at h
        simp only [Except.ok.injEq] at h
        subst h
        simp [countPairsFrom, hl, countStreamPairs]
      · rw [if_neg hl] at h
        cases hp : parseKVLine line r with
        | error e => rw [hp] at h; exact absurd h (by simp)
        | ok r2 => rw [hp] at h; exact absurd h (by simp)
  | cons l rest ih =>
    intro mode line acc recs h
    cases mode with
    | none =>
      simp only [scanStreams] at h
      simp only [Option.isSome_none]
      by_cases hl : line = "[STREAM]"
      · rw [if_pos hl] at h
        have hr := ih (some []) (pyStrip l) acc recs h
        simp only [Option.isSome_some] at hr
        rw [hl, countPairsFrom_enter]
        exact hr
      · rw [if_neg hl] at h
        have hr := ih none (pyStrip l) acc recs h
        simp only [Option.isSome_none] at hr
        rw [countPairsFrom_stay_out line l rest hl]
        exact hr
    | some r =>
      simp only [scanStreams] at h
      simp only [Option.isSome_some]
      by_cases hl : line = "[/STREAM]"
      · rw [if_pos hl] at h
        have hr := ih none (pyStrip l) (acc ++ [r]) recs h
        simp only [Option.isSome_none, List.length_append, List.length_singleton] at hr
        rw [hl, countPairsFrom_close]
        omega
      · rw [if_neg hl] at h
        cases hp : parseKVLine line r with
        | error e =>
          rw [hp] at h
          exact absurd h (by simp)
        | ok r2 =>
          rw [hp] at h
          have hr := ih (some r2) (pyStrip l) acc recs h
          simp only [Option.isSome_some] at hr
          rw [countPairsFrom_stay_in line l rest hl]
          exact hr

/-- C3 (amended): an unterminated `[STREAM]` block raises IndexError (the
inner pop is unguarded) rather than acting as an implicit end-of-block;
whenever the scan does complete without raising, the number of stream
records produced equals the number of well-formed
`[STREAM]`...`[/STREAM]` block pairs in the input. -/
theorem stream_count_matches_blocks (buffer : List String) (recs : List PyDict)
    (h : get_video_info_streams buffer = Except.ok recs) :
    recs.length = countStreamPairs false buffer := by
  match buffer with
  | [] => exact absurd h (by simp [get_video_info_streams])
  | l :: rest =>
    have h1 := scanStreams_ok_length rest none (pyStrip l) [] recs h
    simp only [List.length_nil, Nat.zero_add, Option.isSome_none] at h1
    rw [h1]
    simp only [countPairsFrom, countStreamPairs]

/-- Witness for C3's amended theorem on a single well-formed block. -/
theorem stream_count_matches_blocks_witness :
    ([[("a", "b")]] : List PyDict).length =
      countStreamPairs false ["[STREAM]", "a=b", "[/STREAM]"] :=
  stream_count_matches_blocks ["[STREAM]", "a=b", "[/STREAM]"] [[("a", "b")]] rfl
